import Mathlib

/-!
Verification development for the conversation/tool-orchestration engine of the
text-layer repository.  The definitions below are a shallow embedding of the
Python source:

* `src/app/services/llm/session.py` — `LLMSession.__init__`, the model
  catalogs, `_find_model`, and `trim_message_history`;
* `src/app/commands/threads/process_chat_message.py` —
  `ProcessChatMessageCommand.execute`, `format_message`, `execute_tool_call`;
* `src/app/utils/formatters.py` — `get_timestamp`.

External collaborators (the model provider, the tiktoken tokenizer, the json
standard library, and the vaul toolkit) are modelled as explicit parameters
with the failure modes the source exercises.
-/

namespace TextLayer

/-- Model of a decoded JSON value (the shape Python json.loads produces and
json.dumps consumes).  Objects are ordered association lists, as Python dicts
preserve insertion order. -/
inductive JsonVal where
  | str (s : String)
  | num (n : Int)
  | bool (b : Bool)
  | null
  | arr (xs : List JsonVal)
  | obj (fields : List (String × JsonVal))

/-- Minimal JSON string escaping used by the serializer model (backslash and
double quote). -/
def jsonEscape (s : String) : String :=
  s.data.foldl
    (fun acc c =>
      if c = Char.ofNat 34 then acc ++ "\\\""
      else if c = Char.ofNat 92 then acc ++ "\\\\"
      else acc.push c)
    ""

mutual

/-- Model of Python json.dumps with its default separators. -/
def jsonDumps : JsonVal → String
  | JsonVal.str s => "\"" ++ jsonEscape s ++ "\""
  | JsonVal.num n => toString n
  | JsonVal.bool b => if b then "true" else "false"
  | JsonVal.null => "null"
  | JsonVal.arr xs => "[" ++ jsonDumpsArr xs ++ "]"
  | JsonVal.obj fs => "\x7b" ++ jsonDumpsObj fs ++ "\x7d"

/-- Serializes the elements of a JSON array, comma separated. -/
def jsonDumpsArr : List JsonVal → String
  | [] => ""
  | [v] => jsonDumps v
  | v :: vs => jsonDumps v ++ ", " ++ jsonDumpsArr vs

/-- Serializes the fields of a JSON object, comma separated. -/
def jsonDumpsObj : List (String × JsonVal) → String
  | [] => ""
  | [kv] => "\"" ++ jsonEscape kv.1 ++ "\": " ++ jsonDumps kv.2
  | kv :: fs => "\"" ++ jsonEscape kv.1 ++ "\": " ++ jsonDumps kv.2 ++ ", " ++ jsonDumpsObj fs

end

mutual

/-- Model of the Python str() rendering of a decoded JSON value (single quotes
around strings inside containers, True and False and None spellings).  No claim
depends on the exact text; the function only has to be a definite total
rendering, as str() is. -/
def pyStr : JsonVal → String
  | JsonVal.str s => s
  | JsonVal.num n => toString n
  | JsonVal.bool b => if b then "True" else "False"
  | JsonVal.null => "None"
  | JsonVal.arr xs => "[" ++ pyStrArr xs ++ "]"
  | JsonVal.obj fs => "\x7b" ++ pyStrObj fs ++ "\x7d"

/-- Renders JSON array elements the way Python str() renders list elements. -/
def pyStrArr : List JsonVal → String
  | [] => ""
  | [v] => pyStr v
  | v :: vs => pyStr v ++ ", " ++ pyStrArr vs

/-- Renders JSON object fields the way Python str() renders dict items.  The
single-quote character is written through its code point. -/
def pyStrObj : List (String × JsonVal) → String
  | [] => ""
  | [kv] =>
      String.singleton (Char.ofNat 39) ++ kv.1 ++ String.singleton (Char.ofNat 39)
        ++ ": " ++ pyStr kv.2
  | kv :: fs =>
      String.singleton (Char.ofNat 39) ++ kv.1 ++ String.singleton (Char.ofNat 39)
        ++ ": " ++ pyStr kv.2 ++ ", " ++ pyStrObj fs

end

/-- A raw tool invocation return value, classified by the first branch of the
normalization chain in ProcessChatMessageCommand.execute_tool_call (lines
151-161) that applies to it: an object exposing a dict method, an object
exposing a model_dump method, an object exposing a json method (whose text
decodes to the stored value), a plain Python dict, or anything else (the
stored string is its str() rendering). -/
inductive ToolResult where
  | withDict (d : List (String × JsonVal))
  | withModelDump (d : List (String × JsonVal))
  | withJson (j : JsonVal)
  | plainDict (d : List (String × JsonVal))
  | other (s : String)

/-- Embedding of the normalization chain of execute_tool_call
(process_chat_message.py lines 151-161): result.dict(), else
result.model_dump(), else json.loads(result.json()), else the dict itself,
else the wrapped textual representation. -/
def normalizeToolResult : ToolResult → JsonVal
  | ToolResult.withDict d => JsonVal.obj d
  | ToolResult.withModelDump d => JsonVal.obj d
  | ToolResult.withJson j => j
  | ToolResult.plainDict d => JsonVal.obj d
  | ToolResult.other s => JsonVal.obj [("value", JsonVal.str s)]

/-- The Python value a normalized result is when it is fed to the normalizer
again: a JSON object is a plain dict with none of the export attributes, and
any other JSON value falls through to the textual fallback. -/
def pyValueOf : JsonVal → ToolResult
  | JsonVal.obj d => ToolResult.plainDict d
  | v => ToolResult.other (pyStr v)

/-- A Python message content value as trim_message_history sees it: either a
text value, or a non-text value of which only the truthiness matters (a truthy
non-string makes tokenizer.encode raise, a falsy one — None, 0, empty
containers — is skipped by the `if content` guard). -/
inductive Content where
  | text (s : String)
  | nonText (truthy : Bool)
deriving DecidableEq

/-- A timestamp field value: format_message stores a one-element tuple
(a trailing comma in the source), get_timestamp itself returns a string. -/
inductive PyTimestamp where
  | str (s : String)
  | tuple1 (s : String)
deriving DecidableEq

/-- Discriminates a plain string timestamp from the one-element tuple. -/
def PyTimestamp.isStr : PyTimestamp → Bool
  | PyTimestamp.str _ => true
  | PyTimestamp.tuple1 _ => false

/-- The function part of a model-issued tool call request: name and the
encoded argument text. -/
structure ToolCallFunction where
  name : String
  arguments : String
deriving DecidableEq

/-- A model-issued tool call request (response.choices[0].message.tool_calls
element): id plus function. -/
structure ToolCall where
  id : String
  function : ToolCallFunction
deriving DecidableEq

/-- A tool call entry as re-encoded into the assistant message config by
execute (lines 72-82): id, the literal type field, and the function. -/
structure OutToolCall where
  id : String
  type : String
  function : ToolCallFunction
deriving DecidableEq

/-- Re-encoding of a request into an assistant message entry (lines 73-80):
the type field is always the literal "function". -/
def toOutToolCall (tc : ToolCall) : OutToolCall :=
  ⟨tc.id, "function", tc.function⟩

/-- A chat message dict.  Fields are optional because the source messages are
Python dicts with varying keys; none stands for an absent key (a key present
with value None behaves identically at every use site in scope).  Field order:
id, role, content, timestamp, finish_reason, tool_calls, tool_call_id. -/
structure Message where
  id : Option String
  role : String
  content : Option Content
  timestamp : Option PyTimestamp
  finish_reason : Option String
  tool_calls : Option (List OutToolCall)
  tool_call_id : Option String
deriving DecidableEq

/-- The tiktoken p50k_base encoding, abstracted: a deterministic encode to
token ids and a decode back.  The source obtains it from the external tiktoken
library; the claims quantify over it. -/
structure Tokenizer where
  encode : String → List Nat
  decode : List Nat → String

/-- The error raised inside trim_message_history when tokenizer.encode is
applied to a truthy non-string content value (a TypeError in Python). -/
inductive TrimError where
  | nonTextContent
deriving DecidableEq

/-- Embedding of the per-message tokenization step of trim_message_history
(session.py lines 319-322): content is msg.get("content", ""), and tokens are
tokenizer.encode(content) if content is truthy, else the empty list.  A truthy
non-string content makes encode raise. -/
def tokenizeMsg (tok : Tokenizer) (m : Message) : Except TrimError (List Nat) :=
  match m.content with
  | none => Except.ok []
  | some (Content.text s) => if s = "" then Except.ok [] else Except.ok (tok.encode s)
  | some (Content.nonText truthy) =>
      if truthy then Except.error TrimError.nonTextContent else Except.ok []

/-- The tokenization loop over all messages, in order, stopping at the first
failure (the Python for loop raises there). -/
def tokenizeAll (tok : Tokenizer) : List Message → Except TrimError (List (Message × List Nat))
  | [] => Except.ok []
  | m :: rest =>
    match tokenizeMsg tok m with
    | Except.error e => Except.error e
    | Except.ok ts =>
      match tokenizeAll tok rest with
      | Except.error e => Except.error e
      | Except.ok others => Except.ok ((m, ts) :: others)

/-- Total token count of a tokenized message list (session.py line 325). -/
def totalTokens (xs : List (Message × List Nat)) : Nat :=
  (xs.map (fun p => p.2.length)).sum

/-- Embedding of the eviction loop (session.py lines 328-330): while the total
exceeds the limit and messages remain, drop the oldest. -/
def trimLoop (limit : Nat) : List (Message × List Nat) → List (Message × List Nat)
  | [] => []
  | p :: rest =>
      if limit < totalTokens (p :: rest) then trimLoop limit rest else p :: rest

/-- Embedding of the re-emission step (session.py lines 333-348): a surviving
message is rebuilt with only role and the decoded token sequence, carrying
tool_calls only when truthy (a non-empty list) and tool_call_id only when
truthy (present and non-empty). -/
def reemit (tok : Tokenizer) (m : Message) (tokens : List Nat) : Message :=
  ⟨none, m.role, some (Content.text (tok.decode tokens)), none, none,
    (match m.tool_calls with
     | some (tc :: rest) => some (tc :: rest)
     | _ => none),
    (match m.tool_call_id with
     | some s => if s = "" then none else some s
     | none => none)⟩

/-- Embedding of LLMSession.trim_message_history (session.py lines 305-350).
In the source the token limit is computed from the session chat model by
_get_chat_model_token_limit; the claims quantify over the limit, so it is a
parameter here, as is the tiktoken encoding. -/
def trim_message_history (tok : Tokenizer) (token_limit : Nat) (messages : List Message) :
    Except TrimError (List Message) :=
  match tokenizeAll tok messages with
  | Except.error e => Except.error e
  | Except.ok tokenized =>
      Except.ok ((trimLoop token_limit tokenized).map (fun p => reemit tok p.1 p.2))

/-- The token sequence trim computes for a message (meaningful when its
tokenization succeeds; the error case never arises where this is used). -/
def tokensOf (tok : Tokenizer) (m : Message) : List Nat :=
  match tokenizeMsg tok m with
  | Except.ok ts => ts
  | Except.error _ => []

/-- Total token count of a plain message list under a tokenizer. -/
def tokenTotal (tok : Tokenizer) (ms : List Message) : Nat :=
  totalTokens (ms.map (fun m => (m, tokensOf tok m)))

/-- Whether a message content value is a truthy non-string (the only shape
that makes trim_message_history raise). -/
def truthyNonTextContent (m : Message) : Bool :=
  match m.content with
  | some (Content.nonText true) => true
  | _ => false

/-- Whether trim_message_history completes without raising. -/
def trimSucceeds (tok : Tokenizer) (token_limit : Nat) (messages : List Message) : Bool :=
  match trim_message_history tok token_limit messages with
  | Except.ok _ => true
  | Except.error _ => false

/-- The sources of fresh values consumed during a turn: the k-th call of
uuid4 and the k-th call of get_timestamp(with_nanoseconds=True), in call
order within the turn. -/
structure Supply where
  uuid : Nat → String
  timestamp : Nat → String

/-- Embedding of ProcessChatMessageCommand.format_message
(process_chat_message.py lines 135-143).  The keyword arguments are passed
positionally here: finish_reason, tool_calls, tool_call_id; a key a caller
does not pass is none.  Note that the timestamp value is a ONE-ELEMENT TUPLE
around the get_timestamp string, because the source dict literal has a
trailing comma on line 141. -/
def format_message (sup : Supply) (k : Nat) (role : String) (content : Option Content)
    (finish_reason : Option String) (tool_calls : Option (List OutToolCall))
    (tool_call_id : Option String) : Message :=
  ⟨some (sup.uuid k), role, content, some (PyTimestamp.tuple1 (sup.timestamp k)),
    finish_reason, tool_calls, tool_call_id⟩

/-- A failure of a single tool dispatch: the argument text does not decode
(json.loads raises), the named tool is not in the toolkit, or the tool raises
during execution.  The latter two arise inside the external vaul
Toolkit.run_tool. -/
inductive DispatchError where
  | argumentDecode (msg : String)
  | unknownTool (name : String)
  | toolRaised (msg : String)
deriving DecidableEq

/-- The external collaborators of one dispatch: json.loads on the argument
text and toolkit.run_tool on the decoded arguments. -/
structure DispatchCtx where
  decodeArgs : String → Except DispatchError JsonVal
  runTool : String → JsonVal → Except DispatchError ToolResult

/-- Embedding of ProcessChatMessageCommand.execute_tool_call
(process_chat_message.py lines 145-161): decode the argument text, run the
tool, normalize the result.  There is no exception handler here: any failure
propagates to the caller. -/
def execute_tool_call (ctx : DispatchCtx) (tc : ToolCall) : Except DispatchError JsonVal :=
  match ctx.decodeArgs tc.function.arguments with
  | Except.error e => Except.error e
  | Except.ok args =>
    match ctx.runTool tc.function.name args with
    | Except.error e => Except.error e
    | Except.ok result => Except.ok (normalizeToolResult result)

/-- Embedding of the second normalization inside the tool loop of execute
(lines 90-100).  Its input is the value execute_tool_call returned, which is
a decoded-JSON-shaped Python value, so none of the dict, model_dump and json
attribute checks fire: a dict passes through, anything else falls to
content = str(tool_result). -/
def coerceToolResult : JsonVal → JsonVal
  | JsonVal.obj d => JsonVal.obj d
  | v => JsonVal.str (pyStr v)

/-- A failure that escapes ProcessChatMessageCommand.execute: the validate
check on empty input (a ValidationException), iterating a None tool_calls
attribute (a TypeError), or an uncaught exception from a tool dispatch. -/
inductive TurnError where
  | validationFailure (msg : String)
  | noneNotIterable
  | toolDispatch (e : DispatchError)
deriving DecidableEq

/-- Embedding of the tool loop of execute (lines 86-110): for each call in
listed order, run execute_tool_call, coerce, json.dumps, and wrap into a tool
message referencing the call id.  The uuid/timestamp index k advances by one
per formatted message.  A dispatch failure propagates: the messages built so
far are discarded and no later call is dispatched. -/
def runToolCalls (ctx : DispatchCtx) (sup : Supply) :
    List ToolCall → Nat → Except DispatchError (List Message)
  | [], _ => Except.ok []
  | tc :: rest, k =>
    match execute_tool_call ctx tc with
    | Except.error e => Except.error e
    | Except.ok tool_result =>
      match runToolCalls ctx sup rest (k + 1) with
      | Except.error e => Except.error e
      | Except.ok others =>
        Except.ok
          (format_message sup k "tool"
              (some (Content.text (jsonDumps (coerceToolResult tool_result))))
              none none (some tc.id) :: others)

/-- The projection of the provider response the source reads
(response.choices[0]): the finish reason, the message content (a Python value
that may be None), and the tool_calls attribute (None or a list). -/
structure ResponseMessage where
  content : Content
  tool_calls : Option (List ToolCall)
deriving DecidableEq

/-- A provider chat response, reduced to the fields execute reads. -/
structure ModelResponse where
  finish_reason : String
  message : ResponseMessage
deriving DecidableEq

/-- Embedding of ProcessChatMessageCommand.execute (process_chat_message.py
lines 39-118) from the point where the provider response is in hand (the
provider call itself is an external collaborator; prepare_chat_messages only
shapes its input).  The chat_messages argument is the CONTENTS OF THE LIST
OBJECT THE CALLER SUPPLIED: the constructor stores that list by reference
(line 26), execute appends the assistant message and extends with the tool
messages IN PLACE (lines 115-116) and returns the very same object (line
118).  The returned list is therefore simultaneously the return value of
execute and the caller-visible contents of the caller-held list afterward.
The validate call on line 43 rejects an empty history first. -/
def ProcessChatMessageCommand.execute (ctx : DispatchCtx) (sup : Supply)
    (chat_messages : List Message) (response : ModelResponse) :
    Except TurnError (List Message) :=
  if chat_messages = [] then
    Except.error (TurnError.validationFailure "Chat messages are required.")
  else if response.finish_reason = "tool_calls" then
    match response.message.tool_calls with
    | none => Except.error TurnError.noneNotIterable
    | some tool_calls =>
      let response_message :=
        format_message sup 0 "assistant" (some response.message.content)
          (some response.finish_reason) (some (tool_calls.map toOutToolCall)) none
      match runToolCalls ctx sup tool_calls 1 with
      | Except.error e => Except.error (TurnError.toolDispatch e)
      | Except.ok tool_messages =>
        Except.ok (chat_messages ++ response_message :: tool_messages)
  else
    Except.ok
      (chat_messages ++
        [format_message sup 0 "assistant" (some response.message.content)
          (some response.finish_reason) none none])

/-- A chat model catalog entry (session.py lines 18-69). -/
structure ChatModelInfo where
  name : String
  description : String
  token_limit : Nat
deriving DecidableEq

/-- An embedding model catalog entry (session.py lines 71-92). -/
structure EmbeddingModelInfo where
  name : String
  description : String
  dimensions : Nat
deriving DecidableEq

/-- Embedding of LLMSession.AVAILABLE_CHAT_MODELS. -/
def AVAILABLE_CHAT_MODELS : List ChatModelInfo :=
  [⟨"gpt-4o-mini", "The GPT-4o Mini model.", 128000⟩,
   ⟨"gpt-4o", "The GPT-4o model.", 128000⟩,
   ⟨"o3-mini", "The O3 Mini model.", 200000⟩,
   ⟨"o1", "The O1 model", 200000⟩,
   ⟨"o1-mini", "The O1 Mini model.", 200000⟩,
   ⟨"gpt-4.5-preview", "The GPT-4.5 Preview model.", 128000⟩,
   ⟨"us.anthropic.claude-3-7-sonnet-20250219-v1:0", "The Claude 3.7 Sonnet model.", 200000⟩,
   ⟨"us.anthropic.claude-3-5-sonnet-20241022-v2:0", "The Claude 3.5v2 Sonnet model.", 200000⟩,
   ⟨"anthropic.claude-3-sonnet-20240229-v1:0", "The Claude 3 Sonnet model.", 28000⟩,
   ⟨"anthropic.claude-3-haiku-20240307-v1:0", "The Claude 3 Haiku model.", 48000⟩]

/-- Embedding of LLMSession.AVAILABLE_EMBEDDING_MODELS. -/
def AVAILABLE_EMBEDDING_MODELS : List EmbeddingModelInfo :=
  [⟨"text-embedding-3-small", "The OpenAI Embedding 3 Small model.", 1536⟩,
   ⟨"text-embedding-3-large", "The OpenAI Embedding 3 Large model.", 3072⟩,
   ⟨"cohere.embed-english-v3", "The Embed English v3 model from Cohere.", 1024⟩,
   ⟨"amazon.titan-embed-text-v2:0", "The Titan Embed Text v2 model from Amazon.", 1024⟩]

/-- Embedding of LLMSession._find_model over the chat catalog (session.py
lines 125-143): first entry with a matching name, else a ValueError whose
message lists the valid names. -/
def findChatModel (model_name : String) : Except String ChatModelInfo :=
  match AVAILABLE_CHAT_MODELS.find? (fun m => m.name = model_name) with
  | some m => Except.ok m
  | none =>
      Except.error
        ("Invalid chat model: " ++ model_name ++ ". Must be one of "
          ++ toString (AVAILABLE_CHAT_MODELS.map (fun m => m.name)))

/-- Embedding of LLMSession._find_model over the embedding catalog. -/
def findEmbeddingModel (model_name : String) : Except String EmbeddingModelInfo :=
  match AVAILABLE_EMBEDDING_MODELS.find? (fun m => m.name = model_name) with
  | some m => Except.ok m
  | none =>
      Except.error
        ("Invalid embedding model: " ++ model_name ++ ". Must be one of "
          ++ toString (AVAILABLE_EMBEDDING_MODELS.map (fun m => m.name)))

/-- Embedding of LLMSession._get_embedding_model_dimensions (session.py lines
176-185): resolve the name and read the dimensions field. -/
def getEmbeddingDims (model_name : String) : Except String Nat :=
  match findEmbeddingModel model_name with
  | Except.ok m => Except.ok m.dimensions
  | Except.error e => Except.error e

/-- Embedding of LLMSession._get_chat_model_token_limit (session.py lines
165-174). -/
def getChatTokenLimit (model_name : String) : Except String Nat :=
  match findChatModel model_name with
  | Except.ok m => Except.ok m.token_limit
  | Except.error e => Except.error e

/-- The state a successfully constructed LLMSession carries (the fields
__init__ assigns). -/
structure LLMSessionState where
  chat_model : String
  embedding_model : String
  knn_embedding_dimensions : Nat
deriving DecidableEq

/-- A failure of LLMSession.__init__: an unknown model name (ValueError from
_find_model), the KNN_EMBEDDING_DIMENSION config entry missing or falsy
(RuntimeError), or a dimensionality mismatch (ValueError). -/
inductive InitError where
  | unknownModel (msg : String)
  | missingKnnDimension
  | knnDimensionMismatch (actual expected : Nat)
deriving DecidableEq

/-- Embedding of LLMSession.__init__ (session.py lines 97-123): validate the
chat model, validate the embedding model, resolve the embedding
dimensionality, then require a truthy KNN_EMBEDDING_DIMENSION config value
equal to it.  The config value is an Option; the source check
`if not expected_dim` also fires on a declared value of zero. -/
def LLMSession.init (chat_model embedding_model : String) (knn_expected : Option Nat) :
    Except InitError LLMSessionState :=
  match findChatModel chat_model with
  | Except.error e => Except.error (InitError.unknownModel e)
  | Except.ok cm =>
    match findEmbeddingModel embedding_model with
    | Except.error e => Except.error (InitError.unknownModel e)
    | Except.ok em =>
      match getEmbeddingDims em.name with
      | Except.error e => Except.error (InitError.unknownModel e)
      | Except.ok dims =>
        match knn_expected with
        | none => Except.error InitError.missingKnnDimension
        | some v =>
          if v = 0 then Except.error InitError.missingKnnDimension
          else if dims = v then Except.ok ⟨cm.name, em.name, dims⟩
          else Except.error (InitError.knnDimensionMismatch dims v)

/-- Whether LLMSession.__init__ completes without raising. -/
def initSucceeds (chat_model embedding_model : String) (knn_expected : Option Nat) : Bool :=
  match LLMSession.init chat_model embedding_model knn_expected with
  | Except.ok _ => true
  | Except.error _ => false

/-- A concrete executable tokenizer used to evaluate the trimming claims on
explicit inputs: one token per character, decoded back verbatim. -/
def charTok : Tokenizer :=
  ⟨fun s => s.data.map Char.toNat, fun l => String.mk (l.map Char.ofNat)⟩

/-- A concrete supply of fresh ids and timestamps for evaluating the turn on
explicit inputs. -/
def supW : Supply :=
  ⟨fun k => "uuid-" ++ toString k, fun k => "ts-" ++ toString k⟩

/-- A concrete caller message used as the history in evaluations. -/
def uMsg : Message :=
  ⟨none, "user", some (Content.text "hi"), none, none, none, none⟩

/-- A concrete dispatch context: argument text BAD fails to decode, any other
argument text decodes to the empty object, and every tool run returns a plain
mapping. -/
def ctxW : DispatchCtx :=
  ⟨fun s =>
      if s = "BAD" then
        Except.error (DispatchError.argumentDecode "Expecting value: line 1 column 1 (char 0)")
      else Except.ok (JsonVal.obj []),
   fun _ _ => Except.ok (ToolResult.plainDict [("result", JsonVal.num 42)])⟩

/-- A concrete well-formed tool call. -/
def tcGood1 : ToolCall := ⟨"call-1", ⟨"text_to_sql", "\x7b\x7d"⟩⟩

/-- A second concrete well-formed tool call. -/
def tcGood2 : ToolCall := ⟨"call-2", ⟨"text_to_sql", "\x7b\x7d"⟩⟩

/-- A concrete tool call whose argument text does not decode. -/
def tcBad : ToolCall := ⟨"call-0", ⟨"text_to_sql", "BAD"⟩⟩

/-- Whether the tokenization pass over all messages completes without
raising. -/
def tokenizeAllSucceeds (tok : Tokenizer) (messages : List Message) : Bool :=
  match tokenizeAll tok messages with
  | Except.ok _ => true
  | Except.error _ => false

/-- A concrete four-token message. -/
def mA : Message := ⟨none, "user", some (Content.text "aaaa"), none, none, none, none⟩

/-- A concrete two-token message. -/
def mB : Message := ⟨none, "user", some (Content.text "bb"), none, none, none, none⟩

/-- The reemission of mB, as trimming outputs it. -/
def oB : Message := ⟨none, "user", some (Content.text "bb"), none, none, none, none⟩

/-- A concrete five-token message. -/
def mHello : Message := ⟨none, "user", some (Content.text "hello"), none, none, none, none⟩

/-- A concrete message carrying incidental fields, a non-empty tool_calls
list and a non-empty tool_call_id. -/
def mTC : Message :=
  ⟨some "old-id", "assistant", some (Content.text "ok"),
    some (PyTimestamp.str "old-ts"), some "stop",
    some [⟨"c9", "function", ⟨"f", "\x7b\x7d"⟩⟩], some "cid"⟩

/-- The reemission of mTC: incidental fields dropped, linkage kept. -/
def oTC : Message :=
  ⟨none, "assistant", some (Content.text "ok"), none, none,
    some [⟨"c9", "function", ⟨"f", "\x7b\x7d"⟩⟩], some "cid"⟩

/-- The assistant message the turn appends for a plain final reply "hello"
under the concrete supply. -/
def aHello : Message :=
  ⟨some "uuid-0", "assistant", some (Content.text "hello"),
    some (PyTimestamp.tuple1 "ts-0"), some "stop", none, none⟩

/-- The full output of a concrete two-tool-call turn under the concrete
dispatch context and supply. -/
def outW3 : List Message :=
  [uMsg,
   ⟨some "uuid-0", "assistant", some (Content.text ""),
     some (PyTimestamp.tuple1 "ts-0"), some "tool_calls",
     some [⟨"call-1", "function", ⟨"text_to_sql", "\x7b\x7d"⟩⟩,
           ⟨"call-2", "function", ⟨"text_to_sql", "\x7b\x7d"⟩⟩], none⟩,
   ⟨some "uuid-1", "tool", some (Content.text "\x7b\"result\": 42\x7d"),
     some (PyTimestamp.tuple1 "ts-1"), none, none, some "call-1"⟩,
   ⟨some "uuid-2", "tool", some (Content.text "\x7b\"result\": 42\x7d"),
     some (PyTimestamp.tuple1 "ts-2"), none, none, some "call-2"⟩]

/-- Successful tokenization of a message list yields exactly the per-message
token sequences of tokensOf, in order. -/
theorem tokenizeAll_ok (tok : Tokenizer) :
    ∀ (msgs : List Message) (l : List (Message × List Nat)),
      tokenizeAll tok msgs = Except.ok l →
      l = msgs.map (fun m => (m, tokensOf tok m)) := by
  intro msgs
  induction msgs with
  | nil =>
      intro l h
      simp only [tokenizeAll] at h
      injection h with h
      simp [h.symm]
  | cons m rest ih =>
      intro l h
      simp only [tokenizeAll] at h
      cases hm : tokenizeMsg tok m with
      | error e => rw [hm] at h; cases h
      | ok ts =>
        rw [hm] at h
        cases hr : tokenizeAll tok rest with
        | error e => rw [hr] at h; cases h
        | ok others =>
          rw [hr] at h
          injection h with h
          rw [← h, ih others hr]
          simp [tokensOf, hm]

/-- The eviction loop drops some oldest-first prefix: the result is a suffix
whose total is within the limit, and every strictly shorter cut still
exceeded the limit. -/
theorem trimLoop_spec (limit : Nat) :
    ∀ xs : List (Message × List Nat),
      ∃ k, trimLoop limit xs = xs.drop k ∧
        totalTokens (xs.drop k) ≤ limit ∧
        ∀ j, j < k → limit < totalTokens (xs.drop j) := by
  intro xs
  induction xs with
  | nil =>
      refine ⟨0, rfl, ?_, ?_⟩
      · simp [totalTokens]
      · intro j hj; omega
  | cons p rest ih =>
      by_cases h : limit < totalTokens (p :: rest)
      · obtain ⟨k, hk1, hk2, hk3⟩ := ih
        refine ⟨k + 1, ?_, ?_, ?_⟩
        · simpa [trimLoop, h] using hk1
        · simpa using hk2
        · intro j hj
          match j with
          | 0 => simpa using h
          | j + 1 => simpa using hk3 j (by omega)
      · exact ⟨0, by simp [trimLoop, h], by simpa using Nat.not_lt.mp h, by omega⟩

/-- A successful trim is the reemission of some contiguous suffix of the
input, the least oldest-first cut that fits the limit. -/
theorem trim_ok_shape (tok : Tokenizer) (L : Nat) (msgs out : List Message)
    (h : trim_message_history tok L msgs = Except.ok out) :
    ∃ k, out = (msgs.drop k).map (fun m => reemit tok m (tokensOf tok m)) ∧
      tokenTotal tok (msgs.drop k) ≤ L ∧
      ∀ j, j < k → L < tokenTotal tok (msgs.drop j) := by
  unfold trim_message_history at h
  cases ht : tokenizeAll tok msgs with
  | error e => rw [ht] at h; cases h
  | ok tokenized =>
      rw [ht] at h
      injection h with h
      have hmap := tokenizeAll_ok tok msgs tokenized ht
      obtain ⟨k, hk1, hk2, hk3⟩ := trimLoop_spec L tokenized
      have hdrop : ∀ j, tokenized.drop j = (msgs.drop j).map (fun m => (m, tokensOf tok m)) := by
        intro j
        rw [hmap, List.map_drop]
      refine ⟨k, ?_, ?_, ?_⟩
      · rw [← h, hk1, hdrop k, List.map_map]
        rfl
      · rw [tokenTotal, ← hdrop k]; exact hk2
      · intro j hj
        rw [tokenTotal, ← hdrop j]
        exact hk3 j hj

/-- A message tokenization fails exactly on truthy non-text content. -/
theorem tokenizeMsg_error_iff (tok : Tokenizer) (m : Message) :
    tokenizeMsg tok m = Except.error TrimError.nonTextContent ↔
      truthyNonTextContent m = true := by
  cases hmc : m.content with
  | none => simp [tokenizeMsg, truthyNonTextContent, hmc]
  | some c =>
      cases c with
      | text s =>
          by_cases hs : s = "" <;> simp [tokenizeMsg, truthyNonTextContent, hmc, hs]
      | nonText t =>
          cases t <;> simp [tokenizeMsg, truthyNonTextContent, hmc]

/-- Dispatching a list of tool calls successfully yields one tool message per
call, in order, each referencing the id of its call. -/
theorem runToolCalls_ok_shape (ctx : DispatchCtx) (sup : Supply) :
    ∀ (tcs : List ToolCall) (k : Nat) (ms : List Message),
      runToolCalls ctx sup tcs k = Except.ok ms →
      ms.map Message.role = tcs.map (fun _ => "tool") ∧
      ms.map Message.tool_call_id = tcs.map (fun tc => some tc.id) := by
  intro tcs
  induction tcs with
  | nil =>
      intro k ms h
      simp only [runToolCalls] at h
      injection h with h
      simp [h.symm]
  | cons tc rest ih =>
      intro k ms h
      simp only [runToolCalls] at h
      cases he : execute_tool_call ctx tc with
      | error e => rw [he] at h; cases h
      | ok tr =>
        rw [he] at h
        cases hr : runToolCalls ctx sup rest (k + 1) with
        | error e => rw [hr] at h; cases h
        | ok others =>
          rw [hr] at h
          injection h with h
          obtain ⟨h1, h2⟩ := ih (k + 1) others hr
          rw [← h]
          simp [format_message, h1, h2]

/-- If every call before some call dispatches successfully and that call
fails, the whole loop fails with exactly that failure. -/
theorem runToolCalls_error_at (ctx : DispatchCtx) (sup : Supply) :
    ∀ (pre : List ToolCall) (tc : ToolCall) (post : List ToolCall) (k : Nat) (e : DispatchError),
      (∀ tc2 ∈ pre, ∃ v, execute_tool_call ctx tc2 = Except.ok v) →
      execute_tool_call ctx tc = Except.error e →
      runToolCalls ctx sup (pre ++ tc :: post) k = Except.error e := by
  intro pre
  induction pre with
  | nil =>
      intro tc post k e _ hf
      simp [runToolCalls, hf]
  | cons p rest ih =>
      intro tc post k e hpre hf
      obtain ⟨v, hv⟩ := hpre p (List.mem_cons_self p rest)
      have hrec := ih tc post (k + 1) e (fun tc2 h2 => hpre tc2 (List.mem_cons_of_mem p h2)) hf
      simp [runToolCalls, hv, hrec]

/-- The embedding model entry _find_model returns carries the requested
name. -/
theorem findEmbeddingModel_name (n : String) (m : EmbeddingModelInfo)
    (h : findEmbeddingModel n = Except.ok m) : m.name = n := by
  unfold findEmbeddingModel at h
  cases hf : AVAILABLE_EMBEDDING_MODELS.find? (fun x => x.name = n) with
  | none => rw [hf] at h; cases h
  | some x =>
      rw [hf] at h
      injection h with h
      rw [← h]
      simpa using List.find?_some hf

/-- Trimming completes exactly when the tokenization pass completes: the
steps after tokenization are total. -/
theorem trimSucceeds_eq (tok : Tokenizer) (L : Nat) (msgs : List Message) :
    trimSucceeds tok L msgs = tokenizeAllSucceeds tok msgs := by
  unfold trimSucceeds trim_message_history tokenizeAllSucceeds
  cases h : tokenizeAll tok msgs <;> simp

/-- The tokenization pass completes exactly when no message content is a
truthy non-text value. -/
theorem tokenizeAllSucceeds_all (tok : Tokenizer) :
    ∀ msgs : List Message,
      tokenizeAllSucceeds tok msgs = msgs.all (fun m => !truthyNonTextContent m) := by
  intro msgs
  induction msgs with
  | nil => simp [tokenizeAllSucceeds, tokenizeAll]
  | cons m rest ih =>
      cases hm : tokenizeMsg tok m with
      | error e =>
          cases e
          have ht : truthyNonTextContent m = true := (tokenizeMsg_error_iff tok m).mp hm
          simp [tokenizeAllSucceeds, tokenizeAll, hm, ht]
      | ok ts =>
          have ht : truthyNonTextContent m = false := by
            cases htc : truthyNonTextContent m
            · rfl
            · rw [(tokenizeMsg_error_iff tok m).mpr htc] at hm; cases hm
          unfold tokenizeAllSucceeds at ih
          cases hr : tokenizeAll tok rest with
          | error e =>
              rw [hr] at ih
              simp [tokenizeAllSucceeds, tokenizeAll, hm, hr, ht, ← ih]
          | ok others =>
              rw [hr] at ih
              simp [tokenizeAllSucceeds, tokenizeAll, hm, hr, ht, ← ih]

/-- C1 counterexample: with a two-call response whose first call carries
undecodable argument text, the turn does NOT return an assembled message
sequence with an error-content tool message — the decode failure escapes
ProcessChatMessageCommand.execute, which has no handler around
execute_tool_call. -/
theorem c1_counterexample :
    ProcessChatMessageCommand.execute ctxW supW [uMsg]
        ⟨"tool_calls", ⟨Content.text "", some [tcBad, tcGood2]⟩⟩ =
      Except.error (TurnError.toolDispatch
        (DispatchError.argumentDecode "Expecting value: line 1 column 1 (char 0)")) := rfl

/-- C1 (amended): when the dispatch of a requested call fails — the argument
text does not decode, the tool is unknown, or the tool raises — and every
call listed before it dispatched successfully, the exception escapes the
turn: execute returns that very failure, no error-content tool message is
produced, the tool messages built for earlier calls are discarded, and no
call after the failing one is dispatched. -/
theorem c1_dispatch_failure_escapes (ctx : DispatchCtx) (sup : Supply)
    (hist : List Message) (hne : hist ≠ []) (c : Content)
    (pre : List ToolCall) (tc : ToolCall) (post : List ToolCall) (e : DispatchError)
    (hpre : ∀ tc2 ∈ pre, ∃ v, execute_tool_call ctx tc2 = Except.ok v)
    (hf : execute_tool_call ctx tc = Except.error e) :
    ProcessChatMessageCommand.execute ctx sup hist
        ⟨"tool_calls", ⟨c, some (pre ++ tc :: post)⟩⟩ =
      Except.error (TurnError.toolDispatch e) := by
  have hrun := runToolCalls_error_at ctx sup pre tc post 1 e hpre hf
  simp [ProcessChatMessageCommand.execute, hne, hrun]

/-- C1 witness: a concrete run where the first call succeeds, the second
fails to decode, and the third is never reached. -/
theorem c1_dispatch_failure_escapes_witness :
    ProcessChatMessageCommand.execute ctxW supW [uMsg]
        ⟨"tool_calls", ⟨Content.text "", some ([tcGood1] ++ tcBad :: [tcGood2])⟩⟩ =
      Except.error (TurnError.toolDispatch
        (DispatchError.argumentDecode "Expecting value: line 1 column 1 (char 0)")) := by
  refine c1_dispatch_failure_escapes ctxW supW [uMsg] ?_ (Content.text "")
      [tcGood1] tcBad [tcGood2]
      (DispatchError.argumentDecode "Expecting value: line 1 column 1 (char 0)") ?_ rfl
  · intro hc; cases hc
  · intro tc2 h2
    rw [List.mem_singleton] at h2
    subst h2
    exact ⟨JsonVal.obj [("result", JsonVal.num 42)], rfl⟩

/-- C2 counterexample: a single five-token message against a limit of two.
The claim predicts the single most recent message is returned; the source
eviction loop removes it as well and returns the empty list. -/
theorem c2_counterexample :
    trim_message_history charTok 2 [mHello] = Except.ok [] ∧
    2 < (tokensOf charTok mHello).length := ⟨rfl, by decide⟩

/-- C2 (amended): trim returns an order-preserving contiguous suffix of the
input, obtained by repeatedly removing the oldest message, re-emitted
message by message; the surviving total is at most the limit and every cut
with fewer removals still exceeded it.  When even the single most recent
message alone exceeds the limit, the result is the EMPTY list (the loop
evicts that message too), not the single most recent message. -/
theorem c2_trim_suffix (tok : Tokenizer) (L : Nat) (msgs out : List Message)
    (h : trim_message_history tok L msgs = Except.ok out) :
    ∃ k, out = (msgs.drop k).map (fun m => reemit tok m (tokensOf tok m)) ∧
      tokenTotal tok (msgs.drop k) ≤ L ∧
      ∀ j, j < k → L < tokenTotal tok (msgs.drop j) :=
  trim_ok_shape tok L msgs out h

/-- C2 witness: a concrete two-message history where only the oldest message
is evicted. -/
theorem c2_trim_suffix_witness :
    ∃ k, [oB] = (([mA, mB].drop k).map (fun m => reemit charTok m (tokensOf charTok m))) ∧
      tokenTotal charTok ([mA, mB].drop k) ≤ 3 ∧
      ∀ j, j < k → 3 < tokenTotal charTok ([mA, mB].drop j) :=
  c2_trim_suffix charTok 3 [mA, mB] [oB] rfl

/-- C3: for a response with N tool-call requests (N at least one) whose
dispatches all complete, the returned sequence is the input history, then
exactly one assistant message carrying all N requests, then exactly N tool
messages in request order, the i-th referencing the id of the i-th
request. -/
theorem c3_tool_call_ordering (ctx : DispatchCtx) (sup : Supply) (hist : List Message)
    (c : Content) (tcs : List ToolCall) (out : List Message)
    (_hN : 1 ≤ tcs.length)
    (h : ProcessChatMessageCommand.execute ctx sup hist ⟨"tool_calls", ⟨c, some tcs⟩⟩ =
      Except.ok out) :
    ∃ tool_messages : List Message,
      out = hist ++
          format_message sup 0 "assistant" (some c) (some "tool_calls")
            (some (tcs.map toOutToolCall)) none :: tool_messages ∧
      tool_messages.length = tcs.length ∧
      tool_messages.map Message.role = tcs.map (fun _ => "tool") ∧
      tool_messages.map Message.tool_call_id = tcs.map (fun tc => some tc.id) := by
  by_cases hh : hist = []
  · rw [hh] at h
    cases h
  · simp only [ProcessChatMessageCommand.execute, if_neg hh] at h
    cases hr : runToolCalls ctx sup tcs 1 with
    | error e => simp [hr] at h
    | ok tms =>
        simp only [hr, reduceIte, Except.ok.injEq] at h
        obtain ⟨h1, h2⟩ := runToolCalls_ok_shape ctx sup tcs 1 tms hr
        have hlen : tms.length = tcs.length := by
          have := congrArg List.length h1
          simpa using this
        exact ⟨tms, h.symm, hlen, h1, h2⟩

/-- C3 witness: a concrete turn with two successfully dispatched calls. -/
theorem c3_tool_call_ordering_witness :
    ∃ tool_messages : List Message,
      outW3 = [uMsg] ++
          format_message supW 0 "assistant" (some (Content.text "")) (some "tool_calls")
            (some ([tcGood1, tcGood2].map toOutToolCall)) none :: tool_messages ∧
      tool_messages.length = [tcGood1, tcGood2].length ∧
      tool_messages.map Message.role = [tcGood1, tcGood2].map (fun _ => "tool") ∧
      tool_messages.map Message.tool_call_id = [tcGood1, tcGood2].map (fun tc => some tc.id) :=
  c3_tool_call_ordering ctxW supW [uMsg] (Content.text "") [tcGood1, tcGood2] outW3
    (by decide) (by rfl)

/-- C4 counterexample: a tool-call completion reason with an empty (present)
tool_calls list keeps the response content (here non-empty) and stamps an
empty tool_calls field onto the assistant message, so the turn does not
behave as a FINAL branch with empty content; and an ABSENT (None) tool_calls
list makes the turn fail instead of degrading. -/
theorem c4_counterexample :
    (ProcessChatMessageCommand.execute ctxW supW [uMsg]
        ⟨"tool_calls", ⟨Content.text "leftover", some []⟩⟩ =
      Except.ok [uMsg,
        ⟨some "uuid-0", "assistant", some (Content.text "leftover"),
          some (PyTimestamp.tuple1 "ts-0"), some "tool_calls", some [], none⟩]) ∧
    ProcessChatMessageCommand.execute ctxW supW [uMsg]
        ⟨"tool_calls", ⟨Content.text "x", none⟩⟩ =
      Except.error TurnError.noneNotIterable := ⟨rfl, rfl⟩

/-- C4 (amended): with the tool-call completion reason and an empty but
present tool_calls list, the turn does not fail and produces no tool message
and dispatches nothing (the result does not depend on the dispatch context);
but the single appended assistant message keeps the response content as is
(not forced empty) and carries an empty tool_calls field.  With the
tool_calls attribute absent (None), the turn fails with a type error while
iterating it. -/
theorem c4_empty_tool_calls (ctx : DispatchCtx) (sup : Supply)
    (m0 : Message) (rest : List Message) (c : Content) :
    (ProcessChatMessageCommand.execute ctx sup (m0 :: rest) ⟨"tool_calls", ⟨c, some []⟩⟩ =
      Except.ok ((m0 :: rest) ++
        [format_message sup 0 "assistant" (some c) (some "tool_calls") (some []) none])) ∧
    ProcessChatMessageCommand.execute ctx sup (m0 :: rest) ⟨"tool_calls", ⟨c, none⟩⟩ =
      Except.error TurnError.noneNotIterable := by
  constructor <;> simp [ProcessChatMessageCommand.execute, runToolCalls]

/-- C5 counterexample: the list object the caller supplied does not keep its
original contents — execute appends to it in place and returns the same
object, so after the turn the caller-held list differs from what the caller
passed in (here it has gained the assistant message). -/
theorem c5_counterexample :
    (ProcessChatMessageCommand.execute ctxW supW [uMsg] ⟨"stop", ⟨Content.text "hello", none⟩⟩ =
      Except.ok [uMsg, aHello]) ∧
    ([uMsg, aHello] : List Message) ≠ [uMsg] := ⟨rfl, by decide⟩

/-- C5 (amended): the value execute returns equals the original history
followed by the new assistant message and tool messages — but it is the
caller-supplied list itself, extended in place (the command stores the
caller list by reference and appends to it), not an extended copy; the
pre-existing elements are left unmodified. -/
theorem c5_returns_extended_caller_list (ctx : DispatchCtx) (sup : Supply)
    (hist : List Message) (response : ModelResponse) (out : List Message)
    (h : ProcessChatMessageCommand.execute ctx sup hist response = Except.ok out) :
    ∃ a rest2, out = hist ++ a :: rest2 ∧ a.role = "assistant" := by
  unfold ProcessChatMessageCommand.execute at h
  by_cases hh : hist = []
  · rw [if_pos hh] at h; cases h
  · rw [if_neg hh] at h
    by_cases hf : response.finish_reason = "tool_calls"
    · rw [if_pos hf] at h
      cases htc : response.message.tool_calls with
      | none => rw [htc] at h; cases h
      | some tcs =>
          rw [htc] at h
          cases hr : runToolCalls ctx sup tcs 1 with
          | error e => simp [hr] at h
          | ok tms =>
              simp only [hr, Except.ok.injEq] at h
              exact ⟨_, tms, h.symm, rfl⟩
    · rw [if_neg hf] at h
      injection h with h
      exact ⟨_, [], h.symm, rfl⟩

/-- C5 witness: a concrete final-reply turn whose output is the history plus
one assistant message. -/
theorem c5_returns_extended_caller_list_witness :
    ∃ a rest2, [uMsg, aHello] = [uMsg] ++ a :: rest2 ∧ a.role = "assistant" :=
  c5_returns_extended_caller_list ctxW supW [uMsg] ⟨"stop", ⟨Content.text "hello", none⟩⟩
    [uMsg, aHello] rfl

/-- C6 counterexample: a surviving message whose tool_call_id is present but
empty loses the field on re-emission (the source keeps it only when truthy),
so the emitted message does not carry tool_call_id even though the original
has one. -/
theorem c6_counterexample :
    trim_message_history charTok 100
        [⟨none, "tool", some (Content.text "hi"), none, none, none, some ""⟩] =
      Except.ok [⟨none, "tool", some (Content.text "hi"), none, none, none, none⟩] ∧
    (⟨none, "tool", some (Content.text "hi"), none, none, none, some ""⟩ : Message).tool_call_id =
      some "" := ⟨rfl, rfl⟩

/-- C6 (amended): every emitted message of a successful trim comes from a
surviving input message; its content is the decoding of the token sequence
obtained from that message (never re-tokenized or truncated); the incidental
id, timestamp and finish_reason fields are dropped; tool_calls is carried
exactly when the original value is a non-empty list; and tool_call_id is
carried exactly when the original value is present AND non-empty (a present
empty identifier is dropped). -/
theorem c6_reemission (tok : Tokenizer) (L : Nat) (msgs out : List Message)
    (h : trim_message_history tok L msgs = Except.ok out) :
    ∀ o ∈ out, ∃ m, m ∈ msgs ∧
      o.id = none ∧ o.timestamp = none ∧ o.finish_reason = none ∧
      o.role = m.role ∧
      o.content = some (Content.text (tok.decode (tokensOf tok m))) ∧
      o.tool_calls = (match m.tool_calls with
        | some (tc :: rest) => some (tc :: rest)
        | _ => none) ∧
      o.tool_call_id = (match m.tool_call_id with
        | some s => if s = "" then none else some s
        | none => none) := by
  intro o ho
  obtain ⟨k, hk, _, _⟩ := trim_ok_shape tok L msgs out h
  rw [hk] at ho
  obtain ⟨m, hm, rfl⟩ := List.mem_map.mp ho
  exact ⟨m, List.mem_of_mem_drop hm, rfl, rfl, rfl, rfl, rfl, rfl, rfl⟩

/-- C6 witness: a concrete history whose sole message carries incidental
fields, a non-empty tool_calls list and a non-empty tool_call_id. -/
theorem c6_reemission_witness :
    ∃ m, m ∈ [mTC] ∧
      oTC.id = none ∧ oTC.timestamp = none ∧ oTC.finish_reason = none ∧
      oTC.role = m.role ∧
      oTC.content = some (Content.text (charTok.decode (tokensOf charTok m))) ∧
      oTC.tool_calls = (match m.tool_calls with
        | some (tc :: rest) => some (tc :: rest)
        | _ => none) ∧
      oTC.tool_call_id = (match m.tool_call_id with
        | some s => if s = "" then none else some s
        | none => none) :=
  c6_reemission charTok 100 [mTC] [oTC] rfl oTC (List.mem_singleton.mpr rfl)

/-- C7 counterexample: a message whose content is a falsy non-text value
(None) does not make trim fail — the `if content` guard skips tokenization
and the message is re-emitted with empty text content, although the claim
requires a fail-fast error for every non-text content. -/
theorem c7_counterexample :
    trim_message_history charTok 5
        [⟨none, "user", some (Content.nonText false), none, none, none, none⟩] =
      Except.ok [⟨none, "user", some (Content.text ""), none, none, none, none⟩] ∧
    (⟨none, "user", some (Content.nonText false), none, none, none, none⟩ : Message).content =
      some (Content.nonText false) := ⟨rfl, rfl⟩

/-- C7 (amended): trimming never raises on text content (including empty
text), and it fails exactly when some message content is a TRUTHY non-text
value — the failure surfaces when that tokenization is attempted; falsy
non-text content (None, 0, empty containers) is treated as empty content and
does not fail. -/
theorem c7_trim_failure_characterization (tok : Tokenizer) (L : Nat) (msgs : List Message) :
    trimSucceeds tok L msgs = msgs.all (fun m => !truthyNonTextContent m) := by
  rw [trimSucceeds_eq, tokenizeAllSucceeds_all]

/-- C8 evaluation at the failing input: every message the engine formats
carries a timestamp that is a ONE-ELEMENT TUPLE around the
get_timestamp(with_nanoseconds=True) string (a trailing comma in the source
dict literal), not a text value as the claim requires. -/
theorem c8_timestamp_is_tuple :
    (format_message supW 0 "assistant" (some (Content.text "hello")) none none none).timestamp =
      some (PyTimestamp.tuple1 "ts-0") ∧
    ((format_message supW 0 "assistant" (some (Content.text "hello")) none none
        none).timestamp.map PyTimestamp.isStr) = some false := ⟨rfl, rfl⟩

/-- C9: tool-result normalization follows the fixed precedence — structured
export first (dict, then model_dump, then json), else a plain mapping as is,
else the textual representation wrapped under a value key — and it is
idempotent on the plain-mapping tier: an already JSON-safe mapping is
returned unchanged, so normalizing the normalization of a plain mapping
equals normalizing it once. -/
theorem c9_normalize_precedence_idempotent :
    (∀ d : List (String × JsonVal), normalizeToolResult (ToolResult.withDict d) = JsonVal.obj d) ∧
    (∀ d : List (String × JsonVal),
      normalizeToolResult (ToolResult.withModelDump d) = JsonVal.obj d) ∧
    (∀ j : JsonVal, normalizeToolResult (ToolResult.withJson j) = j) ∧
    (∀ d : List (String × JsonVal), normalizeToolResult (ToolResult.plainDict d) = JsonVal.obj d) ∧
    (∀ s : String,
      normalizeToolResult (ToolResult.other s) = JsonVal.obj [("value", JsonVal.str s)]) ∧
    (∀ d : List (String × JsonVal),
      normalizeToolResult (pyValueOf (normalizeToolResult (ToolResult.plainDict d))) =
        normalizeToolResult (ToolResult.plainDict d)) :=
  ⟨fun _ => rfl, fun _ => rfl, fun _ => rfl, fun _ => rfl, fun _ => rfl, fun _ => rfl⟩

/-- C10: session construction fails whenever no expected embedding
dimensionality is declared, and whenever the resolved embedding model
dimensionality differs from the declared expected value; when construction
succeeds, the stored dimensionality equals the declared expected value. -/
theorem c10_knn_dimension_check (cm em : String) (cfg : Option Nat) :
    (∀ s, LLMSession.init cm em cfg = Except.ok s → cfg = some s.knn_embedding_dimensions) ∧
    (cfg = none → initSucceeds cm em cfg = false) ∧
    (∀ d v, getEmbeddingDims em = Except.ok d → cfg = some v → v ≠ d →
      initSucceeds cm em cfg = false) := by
  refine ⟨?_, ?_, ?_⟩
  · intro s hs
    unfold LLMSession.init at hs
    cases h1 : findChatModel cm with
    | error e => simp only [h1] at hs; cases hs
    | ok cmi =>
      simp only [h1] at hs
      cases h2 : findEmbeddingModel em with
      | error e => simp only [h2] at hs; cases hs
      | ok emi =>
        simp only [h2] at hs
        cases h3 : getEmbeddingDims emi.name with
        | error e => simp only [h3] at hs; cases hs
        | ok dims =>
          simp only [h3] at hs
          split at hs
          · cases hs
          · rename_i vopt v
            by_cases hv : v = 0
            · rw [if_pos hv] at hs; cases hs
            · rw [if_neg hv] at hs
              by_cases hdv : dims = v
              · rw [if_pos hdv] at hs
                injection hs with hs
                rw [← hs, hdv]
              · rw [if_neg hdv] at hs; cases hs
  · intro hnone
    subst hnone
    have herr : ∃ e, LLMSession.init cm em none = Except.error e := by
      unfold LLMSession.init
      cases h1 : findChatModel cm with
      | error e => simp only [h1]; exact ⟨_, rfl⟩
      | ok cmi =>
        simp only [h1]
        cases h2 : findEmbeddingModel em with
        | error e => simp only [h2]; exact ⟨_, rfl⟩
        | ok emi =>
          simp only [h2]
          cases h3 : getEmbeddingDims emi.name with
          | error e => simp only [h3]; exact ⟨_, rfl⟩
          | ok dims => simp only [h3]; exact ⟨_, rfl⟩
    obtain ⟨e, he⟩ := herr
    unfold initSucceeds
    rw [he]
  · intro d v hd hv hne
    subst hv
    have herr : ∃ e, LLMSession.init cm em (some v) = Except.error e := by
      unfold LLMSession.init
      cases h1 : findChatModel cm with
      | error e => simp only [h1]; exact ⟨_, rfl⟩
      | ok cmi =>
        simp only [h1]
        cases h2 : findEmbeddingModel em with
        | error e => simp only [h2]; exact ⟨_, rfl⟩
        | ok emi =>
          simp only [h2]
          have hname := findEmbeddingModel_name em emi h2
          have h3 : getEmbeddingDims emi.name = Except.ok d := by rw [hname]; exact hd
          simp only [h3]
          by_cases hv0 : v = 0
          · rw [if_pos hv0]; exact ⟨_, rfl⟩
          · rw [if_neg hv0, if_neg (fun hdv : d = v => hne hdv.symm)]
            exact ⟨_, rfl⟩
    obtain ⟨e, he⟩ := herr
    unfold initSucceeds
    rw [he]

/-- C10 witness: with the small OpenAI embedding model (1536 dimensions),
construction under a declared expectation of 1536 succeeds and stores 1536,
and construction under a declared expectation of 1024 fails. -/
theorem c10_knn_dimension_check_witness :
    ((some 1536 : Option Nat) =
      some ((⟨"gpt-4o", "text-embedding-3-small", 1536⟩ : LLMSessionState).knn_embedding_dimensions)) ∧
    initSucceeds "gpt-4o" "text-embedding-3-small" (some 1024) = false := by
  constructor
  · exact (c10_knn_dimension_check "gpt-4o" "text-embedding-3-small" (some 1536)).1
      ⟨"gpt-4o", "text-embedding-3-small", 1536⟩ (by rfl)
  · exact (c10_knn_dimension_check "gpt-4o" "text-embedding-3-small" (some 1024)).2.2
      1536 1024 (by rfl) rfl (by decide)

end TextLayer
